import Mathlib

/-!
Verification of the snapshot-aggregation and debt-ledger logic of the
`project50k-backend` finance module (`src/app/api/v1/finance.py`, data model in
`src/app/services/database/models/finance/model.py`).

Modelling conventions:
* Python floats are modelled as exact rationals (`ℚ`), following the spec's
  requirement of exact decimal arithmetic.
* Python `round(x, 1)` / `round(x)` (banker's rounding, round-half-to-even)
  is modelled by `rhe` below; Python `int(x)` (truncation toward zero) by
  `pytrunc`.
* `datetime.date` is modelled by `PyDate` (year, month, day as integers) with
  lexicographic comparison; `dateutil.relativedelta(months=n)` addition with
  day-of-month clamping is modelled by `addMonths`.
* Database rows are modelled as plain structures; surrogate ids, `user_id` and
  `created_at` timestamps are storage metadata not touched by the verified
  logic and are omitted.  `updated_at` is kept (as an abstract `Nat` tick)
  where a claim mentions it.
* Python dicts are modelled as insertion-ordered association lists, matching
  CPython's guaranteed iteration order.
-/

/-- Round half to even on a rational, the semantics of Python 3 `round` at
exact (decimal) inputs.  Returns the nearest integer, ties to the even one. -/
def rhe (q : ℚ) : ℤ :=
  if q - (⌊q⌋ : ℚ) < 1/2 then ⌊q⌋
  else if 1/2 < q - (⌊q⌋ : ℚ) then ⌊q⌋ + 1
  else if Even ⌊q⌋ then ⌊q⌋ else ⌊q⌋ + 1

/-- Python `round(x, 1)`: round to one decimal place, ties to even. -/
def rnd1 (q : ℚ) : ℚ := ((rhe (q * 10) : ℤ) : ℚ) / 10

/-- Python `int(x)`: truncation toward zero. -/
def pytrunc (q : ℚ) : ℤ := if 0 ≤ q then ⌊q⌋ else -⌊-q⌋

theorem rhe_floor_le (q : ℚ) : ⌊q⌋ ≤ rhe q := by
  unfold rhe
  split_ifs <;> omega

theorem rhe_le_floor_add_one (q : ℚ) : rhe q ≤ ⌊q⌋ + 1 := by
  unfold rhe
  split_ifs <;> omega

theorem rhe_intCast (n : ℤ) : rhe (n : ℚ) = n := by
  unfold rhe
  simp

theorem rhe_mono {x y : ℚ} (h : x ≤ y) : rhe x ≤ rhe y := by
  have hf : ⌊x⌋ ≤ ⌊y⌋ := Int.floor_le_floor h
  rcases lt_or_eq_of_le hf with hlt | heq
  · calc rhe x ≤ ⌊x⌋ + 1 := rhe_le_floor_add_one x
      _ ≤ ⌊y⌋ := by omega
      _ ≤ rhe y := rhe_floor_le y
  · have hx : (⌊x⌋ : ℚ) ≤ x := Int.floor_le x
    have hy : (⌊y⌋ : ℚ) ≤ y := Int.floor_le y
    have hxy : x - (⌊x⌋ : ℚ) ≤ y - (⌊y⌋ : ℚ) := by
      rw [← heq]; linarith
    unfold rhe
    rw [← heq]
    split_ifs <;> first | omega | (exfalso; linarith)

theorem int_le_rhe {n : ℤ} {q : ℚ} (h : (n : ℚ) ≤ q) : n ≤ rhe q := by
  have := rhe_mono h
  rwa [rhe_intCast] at this

theorem rhe_le_int {n : ℤ} {q : ℚ} (h : q ≤ (n : ℚ)) : rhe q ≤ n := by
  have := rhe_mono h
  rwa [rhe_intCast] at this

theorem rnd1_mono {x y : ℚ} (h : x ≤ y) : rnd1 x ≤ rnd1 y := by
  unfold rnd1
  have h10 : x * 10 ≤ y * 10 := by linarith
  have := rhe_mono h10
  have hc : ((rhe (x * 10) : ℤ) : ℚ) ≤ ((rhe (y * 10) : ℤ) : ℚ) := by exact_mod_cast this
  linarith

theorem rnd1_nonneg {q : ℚ} (h : 0 ≤ q) : 0 ≤ rnd1 q := by
  unfold rnd1
  have h10 : ((0 : ℤ) : ℚ) ≤ q * 10 := by push_cast; linarith
  have := int_le_rhe h10
  have hc : ((0 : ℤ) : ℚ) ≤ ((rhe (q * 10) : ℤ) : ℚ) := by exact_mod_cast this
  push_cast at hc
  linarith

theorem rnd1_le_hundred {q : ℚ} (h : q ≤ 100) : rnd1 q ≤ 100 := by
  unfold rnd1
  have h10 : q * 10 ≤ ((1000 : ℤ) : ℚ) := by push_cast; linarith
  have := rhe_le_int h10
  have hc : ((rhe (q * 10) : ℤ) : ℚ) ≤ ((1000 : ℤ) : ℚ) := by exact_mod_cast this
  push_cast at hc
  linarith

/-- Calendar date, mirroring `datetime.date` (year, month 1–12, day 1–31). -/
structure PyDate where
  year : ℤ
  month : ℤ
  day : ℤ
deriving DecidableEq, BEq

/-- `a <= b` on dates, lexicographic on (year, month, day). -/
def dateLe (a b : PyDate) : Bool :=
  if a.year < b.year then true
  else if b.year < a.year then false
  else if a.month < b.month then true
  else if b.month < a.month then false
  else decide (a.day ≤ b.day)

/-- Gregorian leap year test. -/
def isLeap (y : ℤ) : Bool := (y % 4 == 0 && y % 100 != 0) || y % 400 == 0

/-- Number of days in a given month. -/
def daysInMonth (y m : ℤ) : ℤ :=
  if m = 2 then (if isLeap y then 29 else 28)
  else if m = 4 ∨ m = 6 ∨ m = 9 ∨ m = 11 then 30
  else 31

/-- `d + relativedelta(months := n)`: calendar month addition with the
day-of-month clamped to the length of the target month. -/
def addMonths (d : PyDate) (n : ℤ) : PyDate :=
  let idx := d.year * 12 + (d.month - 1) + n
  let y := idx.fdiv 12
  let m := idx.fmod 12 + 1
  { year := y, month := m, day := min d.day (daysInMonth y m) }

/-- `d - timedelta(days := 1)` for a valid calendar date. -/
def subDay (d : PyDate) : PyDate :=
  if 1 < d.day then { d with day := d.day - 1 }
  else if 1 < d.month then
    { year := d.year, month := d.month - 1, day := daysInMonth d.year (d.month - 1) }
  else { year := d.year - 1, month := 12, day := 31 }

/-- `get_remaining_months(start_date, total_months)` from `finance.py`,
with the implicit `date.today()` made an explicit `today` argument. -/
def getRemainingMonths (startDate : PyDate) (totalMonths : ℤ) (today : PyDate) : ℤ :=
  if dateLe (addMonths startDate totalMonths) today then 1
  else
    max 1 (totalMonths
      - ((today.year - startDate.year) * 12 + (today.month - startDate.month)))

/-- `Debt` row (`model.py`): `interest_rate` is stored already defaulted,
`is_cleared` defaults to `false` on creation. -/
structure Debt where
  name : String
  total_amount : ℚ
  remaining_amount : ℚ
  interest_rate : ℚ
  due_date : Option PyDate
  is_cleared : Bool
deriving DecidableEq

/-- The state transition of `pay_debt` (`finance.py` lines 392–393):
`remaining_amount = max(0, remaining_amount - amount)`,
`is_cleared = remaining_amount == 0`.  Note: the endpoint performs no
validation of `amount`; it is applied as-is, negative or not. -/
def payDebt (d : Debt) (amount : ℚ) : Debt :=
  { d with remaining_amount := max 0 (d.remaining_amount - amount),
           is_cleared := decide (max 0 (d.remaining_amount - amount) = 0) }

/-- Per-debt payoff percentage, as computed identically in `list_debts`,
`pay_debt` and `get_dashboard`:
`round((total - remaining) / total * 100, 1) if total > 0 else 0`. -/
def debtProgressPercent (d : Debt) : ℚ :=
  if 0 < d.total_amount then
    rnd1 ((d.total_amount - d.remaining_amount) / d.total_amount * 100)
  else 0

/-- The debt invariants stated by the spec:
`0 ≤ remaining ≤ total` and `cleared ⇔ remaining == 0`. -/
def debtInvariant (d : Debt) : Prop :=
  0 ≤ d.remaining_amount ∧ d.remaining_amount ≤ d.total_amount ∧
    (d.is_cleared = true ↔ d.remaining_amount = 0)

instance (d : Debt) : Decidable (debtInvariant d) := by
  unfold debtInvariant
  infer_instance

/-- Request body `DebtCreate` (`finance.py`): optional starting balance and
optional interest rate. -/
structure DebtCreate where
  name : String
  total_amount : ℚ
  remaining_amount : Option ℚ
  interest_rate : Option ℚ
  due_date : Option PyDate

/-- Python's `a or b` applied to an optional float: `None` and `0.0` are both
falsy and fall through to the default. -/
def pyOr (v : Option ℚ) (dflt : ℚ) : ℚ :=
  match v with
  | some x => if x = 0 then dflt else x
  | none => dflt

/-- `create_debt` (`finance.py` lines 353–360):
`remaining_amount = payload.remaining_amount or payload.total_amount`,
`interest_rate = payload.interest_rate or 0`; `is_cleared` takes the model
default `false`. -/
def createDebt (p : DebtCreate) : Debt :=
  { name := p.name
    total_amount := p.total_amount
    remaining_amount := pyOr p.remaining_amount p.total_amount
    interest_rate := pyOr p.interest_rate 0
    due_date := p.due_date
    is_cleared := false }

/-- `Transaction` row (`model.py`): the ledger entry fields the engine reads. -/
structure Transaction where
  name : String
  amount : ℚ
  type : String
  category : String
  date : PyDate
  note : Option String
deriving DecidableEq

/-- `UserGoal` row (`model.py`), with `updated_at` as an abstract tick. -/
structure UserGoal where
  start_date : PyDate
  total_months : ℤ
  savings_target : ℚ
  initial_savings : ℚ
  current_savings : ℚ
  initial_total_debt : ℚ
  daily_budget_limit : ℚ
  monthly_income : Option ℚ
  updated_at : Nat
deriving DecidableEq

/-- Request body `UserGoalUpdate` (`finance.py`): the partial-update payload of
`PUT /goal`; a field left as `none` is absent from the request. -/
structure UserGoalUpdate where
  current_savings : Option ℚ
  daily_budget_limit : Option ℚ
  monthly_income : Option ℚ

/-- `update_user_goal` (`finance.py` lines 500–507): each field is written only
when present in the payload, then `updated_at` is refreshed. -/
def updateUserGoal (now : Nat) (g : UserGoal) (p : UserGoalUpdate) : UserGoal :=
  let g1 := match p.current_savings with
    | some v => { g with current_savings := v }
    | none => g
  let g2 := match p.daily_budget_limit with
    | some v => { g1 with daily_budget_limit := v }
    | none => g1
  let g3 := match p.monthly_income with
    | some v => { g2 with monthly_income := some v }
    | none => g2
  { g3 with updated_at := now }

/-- An entry of the dashboard's alert list.  The source's `AlertItem` carries a
formatted message string; we model its numeric content (`amount`): the absolute
overspend / remaining budget for daily-budget alerts, the overage amount or the
integer percent used for category-budget alerts. -/
structure AlertItem where
  type : String
  category : String
  amount : ℚ
deriving DecidableEq

/-- Python dict assignment `m[k] = v`: replaces the value in place if the key
exists (keeping its position), else appends, matching CPython's
insertion-ordered dicts. -/
def dictInsert : List (String × ℚ) → String → ℚ → List (String × ℚ)
  | [], k, v => [(k, v)]
  | (k', v') :: rest, k, v =>
    if k' = k then (k, v) :: rest else (k', v') :: dictInsert rest k v

/-- Python `m.get(k, dflt)`. -/
def dictGetD (m : List (String × ℚ)) (k : String) (dflt : ℚ) : ℚ :=
  match m.find? (fun e => e.1 == k) with
  | some e => e.2
  | none => dflt

/-- `sum(t.amount for t in l)`. -/
def sumAmounts (l : List Transaction) : ℚ :=
  l.foldl (fun s t => s + t.amount) 0

/-- `sum(t.amount for t in l if t.type == "income")`. -/
def sumIncome (l : List Transaction) : ℚ :=
  sumAmounts (l.filter (fun t => t.type == "income"))

/-- `sum(t.amount for t in l if t.type == "expense")`. -/
def sumExpense (l : List Transaction) : ℚ :=
  sumAmounts (l.filter (fun t => t.type == "expense"))

/-- `sum(d.remaining_amount for d in debts if not d.is_cleared)`. -/
def currentTotalDebtOf (debts : List Debt) : ℚ :=
  (debts.filter (fun d => !d.is_cleared)).foldl (fun s d => s + d.remaining_amount) 0

/-- The by-category expense breakdown of `get_dashboard` (lines 584–587):
`by_category[t.category] = by_category.get(t.category, 0) + t.amount` over the
month's expense transactions, as an insertion-ordered dict. -/
def byCategoryOf (monthTxs : List Transaction) : List (String × ℚ) :=
  monthTxs.foldl
    (fun m t =>
      if t.type == "expense" then dictInsert m t.category (dictGetD m t.category 0 + t.amount)
      else m)
    []

/-- The daily-budget branch of the alert evaluator (`get_dashboard`
lines 623–634). -/
def dailyBudgetAlerts (dailyLimit todayRemaining : ℚ) : List AlertItem :=
  if todayRemaining < 0 then
    [{ type := "error", category := "daily_budget", amount := |todayRemaining| }]
  else if todayRemaining < dailyLimit * 0.2 then
    [{ type := "warning", category := "daily_budget", amount := todayRemaining }]
  else []

/-- The category-budget branch of the alert evaluator (`get_dashboard`
lines 642–656) for a single `by_category` entry. -/
def categoryAlertFor (budgets : List (String × ℚ)) (e : String × ℚ) : List AlertItem :=
  if 0 < dictGetD budgets e.1 0 then
    if dictGetD budgets e.1 0 < e.2 then
      [{ type := "error", category := "category_budget",
         amount := e.2 - dictGetD budgets e.1 0 }]
    else if dictGetD budgets e.1 0 * 0.8 < e.2 then
      [{ type := "warning", category := "category_budget",
         amount := ((pytrunc (e.2 / dictGetD budgets e.1 0 * 100) : ℤ) : ℚ) }]
    else []
  else []

/-- The numeric fields of `DashboardOverview` that the verified claims are
about (today/monthly/yearly/savings metrics, the category breakdown and the
alert list).  Presentation-only fields (labels, echoed transaction lists)
are omitted. -/
structure DashboardSnapshot where
  totalTarget : ℚ
  currentProgress : ℚ
  progressPercent : ℚ
  remaining : ℚ
  paidDebt : ℚ
  savingsGrowth : ℚ
  remainingMonths : ℤ
  monthlyTarget : ℚ
  todayExpense : ℚ
  todayRemaining : ℚ
  monthlyIncome : ℚ
  monthlyExpense : ℚ
  monthlyBalance : ℚ
  byCategory : List (String × ℚ)
  currentSavings : ℚ
  savingsProgressPercent : ℚ
  currentTotalDebt : ℚ
  netWorth : ℚ
  alerts : List AlertItem
deriving DecidableEq

/-- `get_dashboard` (`finance.py` lines 516–728), with the database reads made
explicit inputs: the goal row, all debt rows, the budget rows (category,
monthly_limit), all transaction rows, and `date.today()` as `today`.
Today's and the month's transactions are the corresponding date filters of the
full ledger, as produced by the source's queries. -/
def computeDashboard (goal : UserGoal) (debts : List Debt)
    (budgetRows : List (String × ℚ)) (allTxs : List Transaction)
    (today : PyDate) : DashboardSnapshot :=
  let budgets := budgetRows.foldl (fun m b => dictInsert m b.1 b.2) []
  let todayTxs := allTxs.filter (fun t => t.date == today)
  let monthStart : PyDate := { today with day := 1 }
  let monthEnd := subDay (addMonths monthStart 1)
  let monthTxs := allTxs.filter (fun t => dateLe monthStart t.date && dateLe t.date monthEnd)
  let todayExpense := sumExpense todayTxs
  let todayRemaining := goal.daily_budget_limit - todayExpense
  let monthlyIncome := sumIncome monthTxs
  let monthlyExpense := sumExpense monthTxs
  let monthlyBalance := monthlyIncome - monthlyExpense
  let byCategory := byCategoryOf monthTxs
  let currentTotalDebt := currentTotalDebtOf debts
  let paidDebt := goal.initial_total_debt - currentTotalDebt
  let totalIncome := sumIncome allTxs
  let totalExpense := sumExpense allTxs
  let currentSavings := goal.initial_savings + totalIncome - totalExpense - paidDebt
  let savingsGrowth := currentSavings - goal.initial_savings
  let totalTarget := goal.savings_target + goal.initial_total_debt
  let currentProgress := currentSavings + paidDebt
  let remaining := max 0 (totalTarget - currentProgress)
  let progressPercent :=
    if 0 < totalTarget then rnd1 (currentProgress / totalTarget * 100) else 0
  let remainingMonths := getRemainingMonths goal.start_date goal.total_months today
  let monthlyTarget :=
    if 0 < remainingMonths then ((rhe (remaining / (remainingMonths : ℚ)) : ℤ) : ℚ) else 0
  let alerts :=
    dailyBudgetAlerts goal.daily_budget_limit todayRemaining
      ++ byCategory.flatMap (categoryAlertFor budgets)
  let savingsProgressPercent :=
    if 0 < goal.savings_target then rnd1 (currentSavings / goal.savings_target * 100) else 0
  { totalTarget := totalTarget
    currentProgress := currentProgress
    progressPercent := progressPercent
    remaining := remaining
    paidDebt := paidDebt
    savingsGrowth := savingsGrowth
    remainingMonths := remainingMonths
    monthlyTarget := monthlyTarget
    todayExpense := todayExpense
    todayRemaining := todayRemaining
    monthlyIncome := monthlyIncome
    monthlyExpense := monthlyExpense
    monthlyBalance := monthlyBalance
    byCategory := byCategory
    currentSavings := currentSavings
    savingsProgressPercent := savingsProgressPercent
    currentTotalDebt := currentTotalDebt
    netWorth := currentSavings - currentTotalDebt
    alerts := alerts }

theorem payDebt_total_amount (d : Debt) (a : ℚ) :
    (payDebt d a).total_amount = d.total_amount := rfl

theorem payDebt_remaining_nonneg (d : Debt) (a : ℚ) :
    0 ≤ (payDebt d a).remaining_amount := le_max_left 0 _

theorem payDebt_invariant_step {d : Debt} {a : ℚ}
    (h : debtInvariant d) (ha : 0 ≤ a) : debtInvariant (payDebt d a) := by
  obtain ⟨h0, hle, _⟩ := h
  refine ⟨le_max_left 0 _, ?_, ?_⟩
  · exact max_le (le_trans h0 hle) (by simpa using sub_le_self d.remaining_amount ha |>.trans hle)
  · simp [payDebt]

/-- C2 (counterexample): the claim quantifies over "any sequence of
`applyPayment` calls", but `pay_debt` accepts negative amounts, and a single
negative payment pushes `remaining_amount` above `total_amount`: a debt with
`total = remaining = 100` that initially satisfies the invariant violates it
after `applyPayment(debt, -50)` (remaining becomes 150). -/
theorem payDebt_invariant_cex :
    debtInvariant ⟨"d", 100, 100, 0, none, false⟩ ∧
    ¬ debtInvariant (List.foldl payDebt ⟨"d", 100, 100, 0, none, false⟩ [(-50 : ℚ)]) := by
  constructor
  · exact ⟨by norm_num, by norm_num, by norm_num⟩
  · intro hinv
    have hle : max 0 ((100 : ℚ) - (-50)) ≤ 100 := hinv.2.1
    rw [max_eq_right (by norm_num : (0 : ℚ) ≤ 100 - (-50))] at hle
    norm_num at hle

/-- C2 (amended): for every debt satisfying `0 ≤ remaining_amount ≤
total_amount` and `cleared ⇔ remaining_amount == 0`, after any sequence of
`applyPayment` calls with non-negative amounts the debt still satisfies
`0 ≤ remaining_amount ≤ total_amount`, and its cleared flag holds iff
`remaining_amount == 0`. -/
theorem payDebt_invariant_preserved (d : Debt) (amts : List ℚ)
    (h : debtInvariant d) (hpos : ∀ a ∈ amts, 0 ≤ a) :
    debtInvariant (List.foldl payDebt d amts) := by
  induction amts generalizing d with
  | nil => exact h
  | cons a l ih =>
    simp only [List.foldl_cons]
    exact ih (payDebt d a)
      (payDebt_invariant_step h (hpos a (List.mem_cons_self a l)))
      (fun b hb => hpos b (List.mem_cons_of_mem a hb))

/-- Witness for the amended C2: a concrete debt and two concrete non-negative
payments, with both hypotheses discharged by evaluation. -/
theorem payDebt_invariant_preserved_witness :
    debtInvariant (List.foldl payDebt ⟨"d", 100, 100, 0, none, false⟩ [(30 : ℚ), 80]) :=
  payDebt_invariant_preserved _ _ ⟨by norm_num, by norm_num, by norm_num⟩
    (fun a ha => by fin_cases ha <;> norm_num)

/-- C3 (counterexample): the claim says a negative payment amount fails with
`InvalidAmount` and leaves the debt unchanged, but `pay_debt` performs no
validation at all: `applyPayment(debt, -50)` on a debt with
`remaining_amount = 100` succeeds and changes the balance to 150. -/
theorem payDebt_no_validation_cex :
    (payDebt ⟨"d", 100, 100, 0, none, false⟩ (-50)).remaining_amount = 150 ∧
    (150 : ℚ) ≠ (⟨"d", 100, 100, 0, none, false⟩ : Debt).remaining_amount := by
  constructor
  · show max 0 ((100 : ℚ) - (-50)) = 150
    rw [max_eq_right (by norm_num : (0 : ℚ) ≤ 100 - (-50))]
    norm_num
  · show (150 : ℚ) ≠ 100
    norm_num

/-- C3 (amended): `pay_debt` performs no validation of the payment amount; a
negative amount is applied like any other, so (for a debt with non-negative
balance) it increases `remaining_amount` by `|amount|` instead of failing. -/
theorem payDebt_negative_amount_applied (d : Debt) (a : ℚ) (ha : a < 0)
    (hr : 0 ≤ d.remaining_amount) :
    (payDebt d a).remaining_amount = d.remaining_amount - a ∧
      d.remaining_amount < (payDebt d a).remaining_amount := by
  have h1 : d.remaining_amount < d.remaining_amount - a := by linarith
  have h2 : (0 : ℚ) ≤ d.remaining_amount - a := le_trans hr h1.le
  constructor
  · exact max_eq_right h2
  · show d.remaining_amount < max 0 (d.remaining_amount - a)
    rw [max_eq_right h2]
    exact h1

/-- Witness for the amended C3 at the concrete debt of the counterexample. -/
theorem payDebt_negative_amount_applied_witness :
    (payDebt ⟨"d", 100, 100, 0, none, false⟩ (-50)).remaining_amount
        = (⟨"d", 100, 100, 0, none, false⟩ : Debt).remaining_amount - (-50) ∧
      (⟨"d", 100, 100, 0, none, false⟩ : Debt).remaining_amount
        < (payDebt ⟨"d", 100, 100, 0, none, false⟩ (-50)).remaining_amount :=
  payDebt_negative_amount_applied _ _ (by norm_num) (by norm_num)

/-- C4: for every debt and every payment amount ≥ 0, `applyPayment` sets the
new `remaining_amount` to `max(0, remaining_amount - amount)` and sets
`cleared` iff the new remaining amount is 0; for `amount ≥ remaining_amount`
the result has `remaining_amount = 0` and `cleared = true`. -/
theorem payDebt_clamps (d : Debt) (a : ℚ) (_ha : 0 ≤ a) :
    (payDebt d a).remaining_amount = max 0 (d.remaining_amount - a) ∧
    ((payDebt d a).is_cleared = true ↔ (payDebt d a).remaining_amount = 0) ∧
    (d.remaining_amount ≤ a →
      (payDebt d a).remaining_amount = 0 ∧ (payDebt d a).is_cleared = true) := by
  refine ⟨rfl, by simp [payDebt], ?_⟩
  intro h
  have h0 : max 0 (d.remaining_amount - a) = 0 := max_eq_left (by linarith)
  exact ⟨h0, by simp [payDebt, h0]⟩

/-- Witness for C4, Scenario E of the spec: `total = remaining = 6000`,
payment `6000` → `remaining = 0`, `cleared = true`. -/
theorem payDebt_clamps_witness :
    (payDebt ⟨"d", 6000, 6000, 0, none, false⟩ 6000).remaining_amount = 0 ∧
    (payDebt ⟨"d", 6000, 6000, 0, none, false⟩ 6000).is_cleared = true :=
  (payDebt_clamps _ 6000 (by norm_num)).2.2 (by norm_num)

theorem debtProgressPercent_payDebt_le (d : Debt) (a : ℚ)
    (hr : 0 ≤ d.remaining_amount) (ha : 0 ≤ a) :
    debtProgressPercent d ≤ debtProgressPercent (payDebt d a) := by
  have hrem : (payDebt d a).remaining_amount ≤ d.remaining_amount :=
    max_le hr (by linarith)
  unfold debtProgressPercent
  rw [show (payDebt d a).total_amount = d.total_amount from rfl]
  by_cases h : 0 < d.total_amount
  · rw [if_pos h, if_pos h]
    apply rnd1_mono
    have hsub : d.total_amount - d.remaining_amount
        ≤ d.total_amount - (payDebt d a).remaining_amount := by linarith
    have hdiv : (d.total_amount - d.remaining_amount) / d.total_amount
        ≤ (d.total_amount - (payDebt d a).remaining_amount) / d.total_amount :=
      div_le_div_of_nonneg_right hsub h.le
    nlinarith [hdiv]
  · rw [if_neg h, if_neg h]

theorem debtProgressPercent_foldl_le (amts : List ℚ) (d : Debt)
    (hr : 0 ≤ d.remaining_amount) (hpos : ∀ a ∈ amts, 0 ≤ a) :
    debtProgressPercent d ≤ debtProgressPercent (List.foldl payDebt d amts) := by
  induction amts generalizing d with
  | nil => exact le_refl _
  | cons a l ih =>
    simp only [List.foldl_cons]
    exact le_trans
      (debtProgressPercent_payDebt_le d a hr (hpos a (List.mem_cons_self a l)))
      (ih (payDebt d a) (payDebt_remaining_nonneg d a)
        (fun b hb => hpos b (List.mem_cons_of_mem a hb)))

/-- C8: `debtProgressPercent(debt)` equals 0 when `total_amount ≤ 0` and
`round((total - remaining) / total * 100, 1)` otherwise; for every debt with
`0 ≤ remaining_amount ≤ total_amount` it lies in [0, 100]; and it is
monotonically non-decreasing across any sequence of non-negative payments. -/
theorem debtProgressPercent_props (d : Debt) :
    (d.total_amount ≤ 0 → debtProgressPercent d = 0) ∧
    (0 < d.total_amount →
      debtProgressPercent d
        = rnd1 ((d.total_amount - d.remaining_amount) / d.total_amount * 100)) ∧
    (0 ≤ d.remaining_amount → d.remaining_amount ≤ d.total_amount →
      0 ≤ debtProgressPercent d ∧ debtProgressPercent d ≤ 100) ∧
    (0 ≤ d.remaining_amount → ∀ amts : List ℚ, (∀ a ∈ amts, 0 ≤ a) →
      debtProgressPercent d ≤ debtProgressPercent (List.foldl payDebt d amts)) := by
  refine ⟨?_, ?_, ?_, ?_⟩
  · intro h
    exact if_neg (not_lt.2 h)
  · intro h
    exact if_pos h
  · intro hr hrt
    by_cases h : 0 < d.total_amount
    · have hu0 : 0 ≤ (d.total_amount - d.remaining_amount) / d.total_amount :=
        div_nonneg (by linarith) h.le
      have hu1 : (d.total_amount - d.remaining_amount) / d.total_amount ≤ 1 :=
        (div_le_one h).2 (by linarith)
      unfold debtProgressPercent
      rw [if_pos h]
      constructor
      · exact rnd1_nonneg (by nlinarith)
      · exact rnd1_le_hundred (by nlinarith)
    · unfold debtProgressPercent
      rw [if_neg h]
      norm_num
  · intro hr amts hpos
    exact debtProgressPercent_foldl_le amts d hr hpos

/-- Witness for C8: the bounds and the monotonicity hypotheses discharged on a
concrete debt (`total = 6000`, `remaining = 3000`) and payments `[1000, 500]`. -/
theorem debtProgressPercent_props_witness :
    (0 ≤ debtProgressPercent ⟨"d", 6000, 3000, 0, none, false⟩ ∧
      debtProgressPercent ⟨"d", 6000, 3000, 0, none, false⟩ ≤ 100) ∧
    debtProgressPercent ⟨"d", 6000, 3000, 0, none, false⟩
      ≤ debtProgressPercent
          (List.foldl payDebt ⟨"d", 6000, 3000, 0, none, false⟩ [(1000 : ℚ), 500]) :=
  ⟨(debtProgressPercent_props _).2.2.1 (by norm_num) (by norm_num),
   (debtProgressPercent_props _).2.2.2 (by norm_num) _
     (fun a ha => by fin_cases ha <;> norm_num)⟩

/-- C9 (counterexample): `create_debt` uses Python truthiness
(`payload.remaining_amount or payload.total_amount`), so a request that
explicitly supplies a starting balance of 0 gets `remaining_amount =
total_amount` (here 500), not the supplied balance 0. -/
theorem createDebt_zero_balance_cex :
    (createDebt { name := "d", total_amount := 500, remaining_amount := some 0,
                  interest_rate := some 0, due_date := none }).remaining_amount = 500 ∧
    (500 : ℚ) ≠ 0 := by
  constructor
  · show pyOr (some 0) 500 = 500
    norm_num [pyOr]
  · norm_num

/-- C9 (amended): the created debt has `remaining_amount` equal to the explicit
starting balance when one is supplied and it is nonzero; when the starting
balance is absent — or supplied as the falsy value 0 — it falls back to
`total_amount`.  In both cases the new debt's cleared flag is false. -/
theorem createDebt_amended (p : DebtCreate) :
    (∀ r, p.remaining_amount = some r → r ≠ 0 → (createDebt p).remaining_amount = r) ∧
    ((p.remaining_amount = none ∨ p.remaining_amount = some 0) →
      (createDebt p).remaining_amount = p.total_amount) ∧
    (createDebt p).is_cleared = false := by
  refine ⟨?_, ?_, rfl⟩
  · intro r hr hne
    simp [createDebt, pyOr, hr, hne]
  · rintro (h | h) <;> simp [createDebt, pyOr, h]

/-- Witness for the amended C9: a nonzero explicit starting balance of 300 is
kept, and the cleared flag is false. -/
theorem createDebt_amended_witness :
    (createDebt { name := "d", total_amount := 500, remaining_amount := some 300,
                  interest_rate := none, due_date := none }).remaining_amount = 300 ∧
    (createDebt { name := "d", total_amount := 500, remaining_amount := some 300,
                  interest_rate := none, due_date := none }).is_cleared = false :=
  ⟨(createDebt_amended _).1 300 rfl (by norm_num), (createDebt_amended _).2.2⟩

/-- C10: `PUT /goal` is a frame-preserving partial update: only
`current_savings`, `daily_budget_limit`, `monthly_income` (each only when
present in the request) and `updated_at` change; `start_date`, `total_months`,
`savings_target`, `initial_savings`, `initial_total_debt` and every omitted
field keep their previous values. -/
theorem updateUserGoal_frame (now : Nat) (g : UserGoal) (p : UserGoalUpdate) :
    (updateUserGoal now g p).start_date = g.start_date ∧
    (updateUserGoal now g p).total_months = g.total_months ∧
    (updateUserGoal now g p).savings_target = g.savings_target ∧
    (updateUserGoal now g p).initial_savings = g.initial_savings ∧
    (updateUserGoal now g p).initial_total_debt = g.initial_total_debt ∧
    (updateUserGoal now g p).current_savings = p.current_savings.getD g.current_savings ∧
    (updateUserGoal now g p).daily_budget_limit
      = p.daily_budget_limit.getD g.daily_budget_limit ∧
    (updateUserGoal now g p).monthly_income
      = (if p.monthly_income.isSome then p.monthly_income else g.monthly_income) ∧
    (updateUserGoal now g p).updated_at = now := by
  rcases p with ⟨pc, pd, pm⟩
  rcases pc <;> rcases pd <;> rcases pm <;> simp [updateUserGoal]

theorem getRemainingMonths_pos (s : PyDate) (tm : ℤ) (t : PyDate) :
    0 < getRemainingMonths s tm t := by
  unfold getRemainingMonths
  split_ifs
  · norm_num
  · exact lt_of_lt_of_le one_pos (le_max_left 1 _)

/-- C5: `remainingMonths` is at least 1 for every reference date (also at or
after the plan end): it is 1 once `referenceDate ≥ start_date + total_months`
calendar months, else `max(1, total_months - monthsElapsed)` with
`monthsElapsed` the year×12+month difference; consequently the dashboard's
`monthlyTarget` is always computed through the division branch
`round(remaining / remainingMonths)`, never the guarded else. -/
theorem getRemainingMonths_props (s : PyDate) (tm : ℤ) (today : PyDate)
    (_htm : 1 ≤ tm) :
    1 ≤ getRemainingMonths s tm today ∧
    (dateLe (addMonths s tm) today = true → getRemainingMonths s tm today = 1) ∧
    (dateLe (addMonths s tm) today = false →
      getRemainingMonths s tm today
        = max 1 (tm - ((today.year - s.year) * 12 + (today.month - s.month)))) ∧
    ∀ (g : UserGoal) (debts : List Debt) (budgetRows : List (String × ℚ))
      (txs : List Transaction),
      0 < (computeDashboard g debts budgetRows txs today).remainingMonths ∧
      (computeDashboard g debts budgetRows txs today).monthlyTarget
        = ((rhe ((computeDashboard g debts budgetRows txs today).remaining
            / ((computeDashboard g debts budgetRows txs today).remainingMonths : ℚ)) : ℤ) : ℚ) := by
  refine ⟨?_, ?_, ?_, ?_⟩
  · have := getRemainingMonths_pos s tm today
    omega
  · intro h
    unfold getRemainingMonths
    rw [if_pos h]
  · intro h
    unfold getRemainingMonths
    rw [if_neg (by simp [h])]
  · intro g debts budgetRows txs
    have h1 : 0 < getRemainingMonths g.start_date g.total_months today :=
      getRemainingMonths_pos g.start_date g.total_months today
    constructor
    · exact h1
    · simp only [computeDashboard]
      rw [if_pos h1]

/-- Witness for C5: the concrete goal start 2025-11-28, 12 months, reference
date 2026-01-15 (two calendar months elapsed, before the plan end). -/
theorem getRemainingMonths_props_witness :
    1 ≤ getRemainingMonths ⟨2025, 11, 28⟩ 12 ⟨2026, 1, 15⟩ ∧
    getRemainingMonths ⟨2025, 11, 28⟩ 12 ⟨2026, 1, 15⟩
      = max 1 (12 - (((⟨2026, 1, 15⟩ : PyDate).year - (⟨2025, 11, 28⟩ : PyDate).year) * 12
          + ((⟨2026, 1, 15⟩ : PyDate).month - (⟨2025, 11, 28⟩ : PyDate).month))) :=
  ⟨(getRemainingMonths_props ⟨2025, 11, 28⟩ 12 ⟨2026, 1, 15⟩ (by norm_num)).1,
   (getRemainingMonths_props ⟨2025, 11, 28⟩ 12 ⟨2026, 1, 15⟩ (by norm_num)).2.2.1 (by decide)⟩

/-- C6: the daily-budget evaluator emits exactly one error alert carrying the
absolute overspend when `todayRemaining = dailyBudgetLimit - todayExpense < 0`,
otherwise exactly one warning carrying the remaining amount when
`todayRemaining < 0.2 × dailyBudgetLimit`, otherwise no daily-budget alert —
never more than one. -/
theorem dailyBudgetAlerts_props (dailyLimit todayExpense : ℚ) :
    (dailyLimit - todayExpense < 0 →
      dailyBudgetAlerts dailyLimit (dailyLimit - todayExpense)
        = [{ type := "error", category := "daily_budget",
             amount := |dailyLimit - todayExpense| }]) ∧
    (0 ≤ dailyLimit - todayExpense → dailyLimit - todayExpense < dailyLimit * 0.2 →
      dailyBudgetAlerts dailyLimit (dailyLimit - todayExpense)
        = [{ type := "warning", category := "daily_budget",
             amount := dailyLimit - todayExpense }]) ∧
    (0 ≤ dailyLimit - todayExpense → ¬ dailyLimit - todayExpense < dailyLimit * 0.2 →
      dailyBudgetAlerts dailyLimit (dailyLimit - todayExpense) = []) ∧
    (dailyBudgetAlerts dailyLimit (dailyLimit - todayExpense)).length ≤ 1 := by
  refine ⟨?_, ?_, ?_, ?_⟩
  · intro h
    unfold dailyBudgetAlerts
    rw [if_pos h]
  · intro h0 hw
    unfold dailyBudgetAlerts
    rw [if_neg (not_lt.2 h0), if_pos hw]
  · intro h0 hw
    unfold dailyBudgetAlerts
    rw [if_neg (not_lt.2 h0), if_neg hw]
  · unfold dailyBudgetAlerts
    split_ifs <;> simp

/-- Witness for C6, Scenario A of the spec: limit 150, today's expenses 180 →
one error alert carrying the overspend |150 − 180| = 30. -/
theorem dailyBudgetAlerts_props_witness :
    (150 : ℚ) - 180 < 0 ∧
    dailyBudgetAlerts 150 ((150 : ℚ) - 180)
      = [{ type := "error", category := "daily_budget", amount := |(150 : ℚ) - 180| }] :=
  ⟨by norm_num, (dailyBudgetAlerts_props 150 180).1 (by norm_num)⟩

/-- C7: per category, a limit that is absent (defaulted to 0) or 0 suppresses
alerting; `limit > 0` and `spent > limit` yields exactly one error alert with
the overage; otherwise `spent > 0.8 × limit` yields exactly one warning alert
with the integer percent used — zero or one alert per category — and the
dashboard's alert list is the daily-budget alerts followed by the category
alerts in the iteration order of `byCategory`. -/
theorem categoryAlerts_props :
    (∀ (budgets : List (String × ℚ)) (cat : String) (spent : ℚ),
      (dictGetD budgets cat 0 = 0 → categoryAlertFor budgets (cat, spent) = []) ∧
      (0 < dictGetD budgets cat 0 → dictGetD budgets cat 0 < spent →
        categoryAlertFor budgets (cat, spent)
          = [{ type := "error", category := "category_budget",
               amount := spent - dictGetD budgets cat 0 }]) ∧
      (0 < dictGetD budgets cat 0 → spent ≤ dictGetD budgets cat 0 →
        dictGetD budgets cat 0 * 0.8 < spent →
        categoryAlertFor budgets (cat, spent)
          = [{ type := "warning", category := "category_budget",
               amount := ((pytrunc (spent / dictGetD budgets cat 0 * 100) : ℤ) : ℚ) }]) ∧
      (categoryAlertFor budgets (cat, spent)).length ≤ 1) ∧
    ∀ (g : UserGoal) (debts : List Debt) (budgetRows : List (String × ℚ))
      (txs : List Transaction) (today : PyDate),
      (computeDashboard g debts budgetRows txs today).alerts
        = dailyBudgetAlerts g.daily_budget_limit
            (computeDashboard g debts budgetRows txs today).todayRemaining
          ++ (computeDashboard g debts budgetRows txs today).byCategory.flatMap
              (categoryAlertFor (budgetRows.foldl (fun m b => dictInsert m b.1 b.2) [])) := by
  constructor
  · intro budgets cat spent
    refine ⟨?_, ?_, ?_, ?_⟩
    · intro h
      unfold categoryAlertFor
      rw [if_neg]
      simp [h]
    · intro hpos hover
      unfold categoryAlertFor
      rw [if_pos hpos, if_pos hover]
    · intro hpos hle hwarn
      unfold categoryAlertFor
      rw [if_pos hpos, if_neg (not_lt.2 hle), if_pos hwarn]
    · unfold categoryAlertFor
      split_ifs <;> simp
  · intro g debts budgetRows txs today
    rfl

/-- Witness for C7, Scenario C of the spec: category `food` with monthly limit
2000; spend 2100 → one error alert with overage 100; spend 1700 (85% of the
limit) → one warning alert with the integer percent used. -/
theorem categoryAlerts_props_witness :
    categoryAlertFor [("food", 2000)] ("food", 2100)
      = [{ type := "error", category := "category_budget",
           amount := 2100 - dictGetD [("food", 2000)] "food" 0 }] ∧
    categoryAlertFor [("food", 2000)] ("food", 1700)
      = [{ type := "warning", category := "category_budget",
           amount := ((pytrunc ((1700 : ℚ) / dictGetD [("food", 2000)] "food" 0 * 100) : ℤ) : ℚ) }] :=
  ⟨(categoryAlerts_props.1 [("food", 2000)] "food" 2100).2.1
      (show (0 : ℚ) < 2000 by norm_num) (show (2000 : ℚ) < 2100 by norm_num),
   (categoryAlerts_props.1 [("food", 2000)] "food" 1700).2.2.1
      (show (0 : ℚ) < 2000 by norm_num) (show (1700 : ℚ) ≤ 2000 by norm_num)
      (show (2000 : ℚ) * 0.8 < 1700 by norm_num)⟩

/-- C1: the dashboard's `paidDebt` is `initial_total_debt` minus the remaining
amounts of the uncleared debts, `currentSavings` is
`initial_savings + all-time income − all-time expense − paidDebt`,
`currentProgress = currentSavings + paidDebt`, and `progressPercent` is 0 when
`totalTarget = savings_target + initial_total_debt ≤ 0` and otherwise
`round(currentProgress / totalTarget * 100, 1)`, with no clamping at 100. -/
theorem dashboard_savings_and_progress (g : UserGoal) (debts : List Debt)
    (budgetRows : List (String × ℚ)) (txs : List Transaction) (today : PyDate) :
    (computeDashboard g debts budgetRows txs today).paidDebt
        = g.initial_total_debt - currentTotalDebtOf debts ∧
    (computeDashboard g debts budgetRows txs today).currentSavings
        = g.initial_savings + sumIncome txs - sumExpense txs
          - (computeDashboard g debts budgetRows txs today).paidDebt ∧
    (computeDashboard g debts budgetRows txs today).totalTarget
        = g.savings_target + g.initial_total_debt ∧
    (computeDashboard g debts budgetRows txs today).currentProgress
        = (computeDashboard g debts budgetRows txs today).currentSavings
          + (computeDashboard g debts budgetRows txs today).paidDebt ∧
    ((computeDashboard g debts budgetRows txs today).totalTarget ≤ 0 →
      (computeDashboard g debts budgetRows txs today).progressPercent = 0) ∧
    (0 < (computeDashboard g debts budgetRows txs today).totalTarget →
      (computeDashboard g debts budgetRows txs today).progressPercent
        = rnd1 ((computeDashboard g debts budgetRows txs today).currentProgress
            / (computeDashboard g debts budgetRows txs today).totalTarget * 100)) := by
  refine ⟨rfl, rfl, rfl, rfl, ?_, ?_⟩
  · intro h
    simp only [computeDashboard] at h ⊢
    rw [if_neg (not_lt.2 h)]
  · intro h
    simp only [computeDashboard] at h ⊢
    rw [if_pos h]

/-- Scenario D goal: savings target 50000, initial debt 21800, initial savings
11150, daily limit 150. -/
def scenarioGoal : UserGoal :=
  { start_date := ⟨2025, 11, 28⟩, total_months := 12, savings_target := 50000,
    initial_savings := 11150, current_savings := 11150, initial_total_debt := 21800,
    daily_budget_limit := 150, monthly_income := some 10600, updated_at := 0 }

/-- Scenario D debts: one open debt of 20800 remaining, so `paidDebt = 1000`. -/
def scenarioDebts : List Debt := [⟨"jd", 21800, 20800, 0, none, false⟩]

/-- Scenario D ledger: all-time income 10000 and all-time expense 4000. -/
def scenarioTxs : List Transaction :=
  [⟨"salary", 10000, "income", "salary", ⟨2025, 12, 5⟩, none⟩,
   ⟨"stuff", 4000, "expense", "food", ⟨2025, 12, 6⟩, none⟩]

/-- Witness for C1, Scenario D of the spec: `currentSavings = 16150`,
`totalTarget = 71800 > 0`, `currentProgress = 17150`,
`progressPercent = round(17150/71800*100, 1) = 23.9`. -/
theorem dashboard_savings_and_progress_witness :
    0 < (computeDashboard scenarioGoal scenarioDebts [] scenarioTxs ⟨2025, 12, 15⟩).totalTarget ∧
    (computeDashboard scenarioGoal scenarioDebts [] scenarioTxs ⟨2025, 12, 15⟩).progressPercent
      = rnd1 ((computeDashboard scenarioGoal scenarioDebts [] scenarioTxs ⟨2025, 12, 15⟩).currentProgress
          / (computeDashboard scenarioGoal scenarioDebts [] scenarioTxs ⟨2025, 12, 15⟩).totalTarget * 100) ∧
    (computeDashboard scenarioGoal scenarioDebts [] scenarioTxs ⟨2025, 12, 15⟩).currentSavings
      = 16150 ∧
    (computeDashboard scenarioGoal scenarioDebts [] scenarioTxs ⟨2025, 12, 15⟩).progressPercent
      = 239 / 10 :=
  ⟨by show (0 : ℚ) < 50000 + 21800; norm_num,
   (dashboard_savings_and_progress scenarioGoal scenarioDebts [] scenarioTxs
      ⟨2025, 12, 15⟩).2.2.2.2.2 (by show (0 : ℚ) < 50000 + 21800; norm_num),
   by
     show (11150 : ℚ) + (0 + 10000) - (0 + 4000) - (21800 - (0 + 20800)) = 16150
     norm_num,
   by
     show (if (0 : ℚ) < 50000 + 21800 then
         rnd1 (((11150 : ℚ) + (0 + 10000) - (0 + 4000) - (21800 - (0 + 20800))
             + (21800 - (0 + 20800))) / (50000 + 21800) * 100)
       else 0) = 239 / 10
     rw [if_pos (by norm_num)]
     norm_num [rnd1, rhe]⟩
